import Mathlib

/-!
Shallow embedding of pyStoNED's model-formulation engine:

* pystoned/utils/CQERZG2.py — classes CQRZG2 / CERZG2: variable layout,
  objective, error decomposition, regression equation, log-link, Afriat
  monotonicity and the two sweet-spot cutting-plane families, plus the
  optimize dispatch; and
* pystoned/pCQER.py — classes pCQR / pCER: penalized objectives
  (L1 / L2 / Lipschitz) layered on the base quantile / expectile models.

Constraint expressions are embedded symbolically: a small expression tree
over the decision variables mirrors the Pyomo expression each Python rule
closure builds, and each family is the list of (index, constraint) pairs
the Pyomo Constraint component would materialize.  Python's `sum(...)`
builtin is a left fold starting from 0, and is embedded as such.
-/

set_option linter.unusedVariables false

namespace PyStoned

/-- Composite-error-term mode: CET_ADDI / CET_MULT (pystoned/constant.py). -/
inductive CET
  | addi
  | mult
deriving DecidableEq, Repr

/-- Frontier direction: FUN_PROD / FUN_COST. -/
inductive FUN
  | prod
  | cost
deriving DecidableEq, Repr

/-- Returns to scale: RTS_VRS / RTS_CRS. -/
inductive RTS
  | vrs
  | crs
deriving DecidableEq, Repr

/-- The observation sample after CQRZG2.__init__'s normalization: N
observations, each with output y i, input vector x i of length J and
contextual vector z i of length K (sets I, J, K of the Pyomo model). -/
structure Data where
  N : Nat
  J : Nat
  K : Nat
  y : Nat → ℚ
  x : Nat → Nat → ℚ
  z : Nat → Nat → ℚ

/-- Decision-variable references, one constructor per Pyomo Var of the
CQRZG2 model (alpha, beta, lamda, epsilon, epsilon_plus, epsilon_minus,
frontier). -/
inductive V
  | alpha (i : Nat)
  | beta (i : Nat) (j : Nat)
  | lamda (k : Nat)
  | epsilon (i : Nat)
  | epsilonPlus (i : Nat)
  | epsilonMinus (i : Nat)
  | frontier (i : Nat)
deriving DecidableEq, Repr

/-- Symbolic expressions over the decision variables: the shapes produced
by the Python rule closures (constants, variables, sums, differences,
products, squares via ** 2, and pyomo.environ.log). -/
inductive Expr
  | const (c : ℚ)
  | var (v : V)
  | add (a b : Expr)
  | sub (a b : Expr)
  | mul (a b : Expr)
  | sq (a : Expr)
  | log (a : Expr)
deriving DecidableEq, Repr

/-- Relational operator of a constraint.  FUN_PROD selects
NumericValue.__le__ and FUN_COST selects NumericValue.__ge__ in the
Afriat and sweet-spot rules. -/
inductive Rel
  | eq
  | le
  | ge
deriving DecidableEq, Repr

/-- One generated constraint: a relational expression lhs rel rhs. -/
structure Cons where
  rel : Rel
  lhs : Expr
  rhs : Expr
deriving DecidableEq, Repr

/-- Operator selection at the top of __afriat_rule / __sweet_rule /
__sweet_rule2: le for a production frontier, ge for a cost frontier. -/
def opOf : FUN → Rel
  | .prod => .le
  | .cost => .ge

/-- Python's sum over a generator indexed by range n: a left fold
starting from 0. -/
def sumExpr (n : Nat) (f : Nat → Expr) : Expr :=
  (List.range n).foldl (fun acc j => Expr.add acc (f j)) (Expr.const 0)

/-- Python's sum over the product index set model.I * model.J
(row-major iteration), as in pCQR.__new_objective_rule. -/
def sumIJ (n m : Nat) (f : Nat → Nat → Expr) : Expr :=
  ((List.range n).flatMap fun i => (List.range m).map fun j => f i j).foldl
    (fun acc e => Expr.add acc e) (Expr.const 0)

/-- The recurring subexpression sum over j of beta[w, j] * x[a][j]:
observation w's slope vector evaluated at observation a's inputs. -/
def betaDotX (d : Data) (w a : Nat) : Expr :=
  sumExpr d.J fun j => Expr.mul (Expr.var (V.beta w j)) (Expr.const (d.x a j))

/-- The contextual term sum over k of lamda[k] * z[i][k]. -/
def lamdaDotZ (d : Data) (i : Nat) : Expr :=
  sumExpr d.K fun k => Expr.mul (Expr.var (V.lamda k)) (Expr.const (d.z i k))

/-- Pyomo's Set.nextw on the ordered index set range N: the circular
successor, i + 1 wrapping back to 0 after the last index. -/
def nextw (N i : Nat) : Nat := (i + 1) % N

/-- CQRZG2.__regression_rule.  Returns the rule closure for the supported
configurations; the ADDI + CRS branch and the final fall-through in the
source return the sentinel False instead of a rule, embedded as none. -/
def regression_rule (d : Data) (cet : CET) (rts : RTS) : Option (Nat → Cons) :=
  match cet with
  | .addi =>
    match rts with
    | .vrs =>
      some fun i =>
        ⟨Rel.eq, Expr.const (d.y i),
          Expr.add
            (Expr.add (Expr.add (Expr.var (V.alpha i)) (betaDotX d i i)) (lamdaDotZ d i))
            (Expr.var (V.epsilon i))⟩
    | .crs => none
  | .mult =>
    some fun i =>
      ⟨Rel.eq, Expr.log (Expr.const (d.y i)),
        Expr.add
          (Expr.add (Expr.log (Expr.add (Expr.var (V.frontier i)) (Expr.const 1)))
            (lamdaDotZ d i))
          (Expr.var (V.epsilon i))⟩

/-- CQRZG2.__log_rule.  Defined only for CET_MULT; the additive case
falls through to the sentinel False, embedded as none. -/
def log_rule (d : Data) (cet : CET) (rts : RTS) : Option (Nat → Cons) :=
  match cet with
  | .addi => none
  | .mult =>
    match rts with
    | .vrs =>
      some fun i =>
        ⟨Rel.eq, Expr.var (V.frontier i),
          Expr.sub (Expr.add (Expr.var (V.alpha i)) (betaDotX d i i)) (Expr.const 1)⟩
    | .crs =>
      some fun i =>
        ⟨Rel.eq, Expr.var (V.frontier i), Expr.sub (betaDotX d i i) (Expr.const 1)⟩

/-- CQRZG2.__afriat_rule.  The ADDI + VRS and MULT + VRS branches carry
textually identical closure bodies in the source; the ADDI + CRS branch
returns the sentinel False (none here). -/
def afriat_rule (d : Data) (f : FUN) (cet : CET) (rts : RTS) : Option (Nat → Cons) :=
  match cet with
  | .addi =>
    match rts with
    | .vrs =>
      some fun i =>
        ⟨opOf f,
          Expr.add (Expr.var (V.alpha i)) (betaDotX d i i),
          Expr.add (Expr.var (V.alpha (nextw d.N i))) (betaDotX d (nextw d.N i) i)⟩
    | .crs => none
  | .mult =>
    match rts with
    | .vrs =>
      some fun i =>
        ⟨opOf f,
          Expr.add (Expr.var (V.alpha i)) (betaDotX d i i),
          Expr.add (Expr.var (V.alpha (nextw d.N i))) (betaDotX d (nextw d.N i) i)⟩
    | .crs =>
      some fun i => ⟨opOf f, betaDotX d i i, betaDotX d (nextw d.N i) i⟩

/-- Full model context of CQRZG2: the data plus the two boolean
active-set matrices Cutactive and Active. -/
structure Ctx where
  d : Data
  Cutactive : Nat → Nat → Bool
  Active : Nat → Nat → Bool

/-- CQRZG2.__sweet_rule, gated by the Cutactive matrix.  The inner
closure first tests Cutactive[i, h]; on a true entry a diagonal pair is
skipped (Constraint.Skip, embedded as none) and an off-diagonal pair
yields the cut; a false entry is skipped.  The ADDI + CRS configuration
returns the sentinel False (outer none). -/
def sweet_rule (c : Ctx) (f : FUN) (cet : CET) (rts : RTS) :
    Option (Nat → Nat → Option Cons) :=
  match cet with
  | .addi =>
    match rts with
    | .vrs =>
      some fun i h =>
        if c.Cutactive i h then
          if i = h then none
          else
            some ⟨opOf f,
              Expr.add (Expr.var (V.alpha i)) (betaDotX c.d i i),
              Expr.add (Expr.var (V.alpha h)) (betaDotX c.d h i)⟩
        else none
    | .crs => none
  | .mult =>
    match rts with
    | .vrs =>
      some fun i h =>
        if c.Cutactive i h then
          if i = h then none
          else
            some ⟨opOf f,
              Expr.add (Expr.var (V.alpha i)) (betaDotX c.d i i),
              Expr.add (Expr.var (V.alpha h)) (betaDotX c.d h i)⟩
        else none
    | .crs =>
      some fun i h =>
        if c.Cutactive i h then
          if i = h then none
          else some ⟨opOf f, betaDotX c.d i i, betaDotX c.d h i⟩
        else none

/-- CQRZG2.__sweet_rule2, gated by the Active matrix; the closure bodies
are textually identical to __sweet_rule with Cutactive replaced by
Active. -/
def sweet_rule2 (c : Ctx) (f : FUN) (cet : CET) (rts : RTS) :
    Option (Nat → Nat → Option Cons) :=
  match cet with
  | .addi =>
    match rts with
    | .vrs =>
      some fun i h =>
        if c.Active i h then
          if i = h then none
          else
            some ⟨opOf f,
              Expr.add (Expr.var (V.alpha i)) (betaDotX c.d i i),
              Expr.add (Expr.var (V.alpha h)) (betaDotX c.d h i)⟩
        else none
    | .crs => none
  | .mult =>
    match rts with
    | .vrs =>
      some fun i h =>
        if c.Active i h then
          if i = h then none
          else
            some ⟨opOf f,
              Expr.add (Expr.var (V.alpha i)) (betaDotX c.d i i),
              Expr.add (Expr.var (V.alpha h)) (betaDotX c.d h i)⟩
        else none
    | .crs =>
      some fun i h =>
        if c.Active i h then
          if i = h then none
          else some ⟨opOf f, betaDotX c.d i i, betaDotX c.d h i⟩
        else none

/-- The constraint family materialized by Constraint(model.I, rule=r):
one constraint per observation index. -/
def consFamily1 (N : Nat) (r : Nat → Cons) : List (Nat × Cons) :=
  (List.range N).map fun i => (i, r i)

/-- The constraint family materialized by
Constraint(model.I, model.I, rule=r): Pyomo iterates the square index
set and drops every pair whose rule returns Constraint.Skip (none). -/
def consFamily2 (N : Nat) (r : Nat → Nat → Option Cons) : List ((Nat × Nat) × Cons) :=
  (List.range N).flatMap fun i =>
    (List.range N).filterMap fun h => (r i h).map fun cns => ((i, h), cns)

/-- Number of true off-diagonal entries of an N × N boolean matrix. -/
def offDiagTrueCount (N : Nat) (M : Nat → Nat → Bool) : Nat :=
  ((List.range N).flatMap fun i =>
    (List.range N).filter fun h => M i h && !(i == h)).length

/-- Kind tag for one Pyomo Var component of the CQRZG2 model. -/
inductive VarKind
  | alpha
  | beta
  | lamda
  | epsilon
  | epsilonPlus
  | epsilonMinus
  | frontier
deriving DecidableEq, Repr

/-- One Var declaration: its kind, its index-set sizes, and its lower
bound (none means unbounded below; no Var carries an upper bound). -/
structure VarDecl where
  kind : VarKind
  dims : List Nat
  lb : Option ℚ
deriving DecidableEq, Repr

/-- The variable block of CQRZG2.__init__, in declaration order: alpha
over I, beta over I × J with bounds (0.0, None), lamda over K, epsilon
over I, epsilon_plus and epsilon_minus over I with bounds (0.0, None),
and frontier over I with bounds (0.0, None).  The source allocates every
one of these unconditionally; the cet argument is in scope but the
variable block never branches on it. -/
def varLayout (N J K : Nat) (cet : CET) : List VarDecl :=
  [⟨.alpha, [N], none⟩,
   ⟨.beta, [N, J], some 0⟩,
   ⟨.lamda, [K], none⟩,
   ⟨.epsilon, [N], none⟩,
   ⟨.epsilonPlus, [N], some 0⟩,
   ⟨.epsilonMinus, [N], some 0⟩,
   ⟨.frontier, [N], some 0⟩]

/-- Solver-status slot of the model object: its initial value 0 or the
opaque artifact returned by a solver invocation, tagged with the manager
(none for a local SolverFactory call, some neos for the remote manager)
and the solver name passed to it. -/
inductive ProbStatus
  | initial
  | solverResult (manager : Option String) (solver : String)
deriving DecidableEq, Repr

/-- The two status fields CQRZG2.__init__ sets to 0 and optimize
updates: optimization_status and problem_status. -/
structure OptState where
  optimization_status : Nat
  problem_status : ProbStatus
deriving DecidableEq, Repr

/-- Status fields right after CQRZG2.__init__. -/
def initState : OptState := ⟨0, .initial⟩

/-- What a call to CQRZG2.optimize does besides mutating the status
fields: a normal return (Python None), or the mult + local path which
prints its message and returns False without soliciting any solver. -/
inductive OptOutcome
  | normal
  | notYetAvailable (msg : String)
deriving DecidableEq, Repr

/-- CQRZG2.optimize.  remote = false with CET_ADDI solves locally with
mosek and sets optimization_status to 1; remote = false with CET_MULT
prints the not-yet-available message and returns False, touching
neither status field; remote = true submits to the neos manager with
mosek for additive or knitro for multiplicative composition. -/
def optimize (cet : CET) (remote : Bool) (s : OptState) : OptState × OptOutcome :=
  if remote = false then
    match cet with
    | .addi => (⟨1, .solverResult none "mosek"⟩, .normal)
    | .mult =>
      (s, .notYetAvailable
        "Estimating the multiplicative model will be available in near future.")
  else
    let opt := match cet with | .addi => "mosek" | .mult => "knitro"
    (⟨1, .solverResult (some "neos") opt⟩, .normal)

/-- Modelled from the spec: the unpenalized quantile loss objective of
the base class CQER.CQR (file CQER.py is not among the sources; only its
subclasses pCQR / pCER are).  Spec section 4.2: tau times the sum of
epsilon_plus plus (1 - tau) times the sum of epsilon_minus; identical in
form to CQRZG2.__objective_rule in the sources. -/
def quantileLoss (d : Data) (tau : ℚ) : Expr :=
  Expr.add
    (Expr.mul (Expr.const tau) (sumExpr d.N fun i => Expr.var (V.epsilonPlus i)))
    (Expr.mul (Expr.const (1 - tau)) (sumExpr d.N fun i => Expr.var (V.epsilonMinus i)))

/-- Modelled from the spec: the unpenalized expectile loss objective of
the base class CQER.CER (file CQER.py is not among the sources).  Spec
section 4.2: the quantile loss with each epsilon term squared; identical
in form to CERZG2.__squared_objective_rule in the sources. -/
def expectileLoss (d : Data) (tau : ℚ) : Expr :=
  Expr.add
    (Expr.mul (Expr.const tau)
      (sumExpr d.N fun i => Expr.sq (Expr.var (V.epsilonPlus i))))
    (Expr.mul (Expr.const (1 - tau))
      (sumExpr d.N fun i => Expr.sq (Expr.var (V.epsilonMinus i))))

/-- pCQR.__new_objective_rule (penalty = 1): quantile loss plus the L1
penalty eta times the sum of beta[ij] over the product set I * J. -/
def new_objective_rule (d : Data) (tau eta : ℚ) : Expr :=
  Expr.add
    (Expr.add
      (Expr.mul (Expr.const tau) (sumExpr d.N fun i => Expr.var (V.epsilonPlus i)))
      (Expr.mul (Expr.const (1 - tau)) (sumExpr d.N fun i => Expr.var (V.epsilonMinus i))))
    (Expr.mul (Expr.const eta) (sumIJ d.N d.J fun i j => Expr.var (V.beta i j)))

/-- pCQR.__new_objective_rule2 (penalty = 2): quantile loss plus the L2
penalty eta times the sum of beta[ij] ** 2 over I * J. -/
def new_objective_rule2 (d : Data) (tau eta : ℚ) : Expr :=
  Expr.add
    (Expr.add
      (Expr.mul (Expr.const tau) (sumExpr d.N fun i => Expr.var (V.epsilonPlus i)))
      (Expr.mul (Expr.const (1 - tau)) (sumExpr d.N fun i => Expr.var (V.epsilonMinus i))))
    (Expr.mul (Expr.const eta) (sumIJ d.N d.J fun i j => Expr.sq (Expr.var (V.beta i j))))

/-- pCER.__new_squared_objective_rule (penalty = 1): expectile loss plus
eta times the sum of beta[ij] over I * J. -/
def new_squared_objective_rule (d : Data) (tau eta : ℚ) : Expr :=
  Expr.add
    (Expr.add
      (Expr.mul (Expr.const tau)
        (sumExpr d.N fun i => Expr.sq (Expr.var (V.epsilonPlus i))))
      (Expr.mul (Expr.const (1 - tau))
        (sumExpr d.N fun i => Expr.sq (Expr.var (V.epsilonMinus i)))))
    (Expr.mul (Expr.const eta) (sumIJ d.N d.J fun i j => Expr.var (V.beta i j)))

/-- pCER.__new_squared_objective_rule2 (penalty = 2): expectile loss
plus eta times the sum of beta[ij] ** 2 over I * J. -/
def new_squared_objective_rule2 (d : Data) (tau eta : ℚ) : Expr :=
  Expr.add
    (Expr.add
      (Expr.mul (Expr.const tau)
        (sumExpr d.N fun i => Expr.sq (Expr.var (V.epsilonPlus i))))
      (Expr.mul (Expr.const (1 - tau))
        (sumExpr d.N fun i => Expr.sq (Expr.var (V.epsilonMinus i)))))
    (Expr.mul (Expr.const eta) (sumIJ d.N d.J fun i j => Expr.sq (Expr.var (V.beta i j))))

/-- pCQR.__lipschitz_rule and pCER.__lipschitz_rule (penalty = 3): the
per-observation cap sum over j of beta[i, j] ** 2 at most eta ** 2. -/
def lipschitz_rule (d : Data) (eta : ℚ) : Nat → Cons := fun i =>
  ⟨Rel.le, sumExpr d.J fun j => Expr.sq (Expr.var (V.beta i j)), Expr.const (eta ^ 2)⟩

/-- Objective-and-penalty part of a pCQR formulation: the base
unpenalized objective with its active flag, the optional penalized
objective (active whenever present: a freshly added Pyomo Objective is
active), and the Lipschitz constraint family. -/
structure PFormulation where
  N : Nat
  objective : Expr
  objectiveActive : Bool
  newObjective : Option Expr
  lipschitzNorm : List (Nat × Cons)

/-- Objective-and-penalty part of a pCER formulation.  The base CER
model already holds two objectives: the CQR-level quantile objective,
deactivated by CER.__init__, and the active squared (expectile)
objective. -/
structure PEFormulation where
  N : Nat
  objective : Expr
  objectiveActive : Bool
  squaredObjective : Expr
  squaredObjectiveActive : Bool
  newObjective : Option Expr
  lipschitzNorm : List (Nat × Cons)

/-- pCQR.__init__.  After the base CQR model is built (its unpenalized
objective active), penalty 1 or 2 deactivates that objective and adds
the corresponding penalized objective; penalty 3 keeps it active and
adds the Lipschitz constraint family over I; any other penalty raises
ValueError with this exact message, so the constructor never returns an
object. -/
def mkPCQR (d : Data) (tau eta : ℚ) (penalty : Int) : Except String PFormulation :=
  let m0 : PFormulation :=
    { N := d.N, objective := quantileLoss d tau, objectiveActive := true,
      newObjective := none, lipschitzNorm := [] }
  let m1 := if penalty = 1 ∨ penalty = 2 then { m0 with objectiveActive := false } else m0
  if penalty = 1 then
    .ok { m1 with newObjective := some (new_objective_rule d tau eta) }
  else if penalty = 2 then
    .ok { m1 with newObjective := some (new_objective_rule2 d tau eta) }
  else if penalty = 3 then
    .ok { m1 with lipschitzNorm := consFamily1 d.N (lipschitz_rule d eta) }
  else .error "Penalty must be 1, 2, or 3."

/-- pCER.__init__.  The base CER model arrives with the quantile
objective already deactivated and the squared objective active; penalty
1 or 2 deactivates the squared objective and adds the corresponding
penalized objective; penalty 3 keeps it active and adds the Lipschitz
family; any other penalty raises ValueError. -/
def mkPCER (d : Data) (tau eta : ℚ) (penalty : Int) : Except String PEFormulation :=
  let m0 : PEFormulation :=
    { N := d.N, objective := quantileLoss d tau, objectiveActive := false,
      squaredObjective := expectileLoss d tau, squaredObjectiveActive := true,
      newObjective := none, lipschitzNorm := [] }
  let m1 :=
    if penalty = 1 ∨ penalty = 2 then { m0 with squaredObjectiveActive := false } else m0
  if penalty = 1 then
    .ok { m1 with newObjective := some (new_squared_objective_rule d tau eta) }
  else if penalty = 2 then
    .ok { m1 with newObjective := some (new_squared_objective_rule2 d tau eta) }
  else if penalty = 3 then
    .ok { m1 with lipschitzNorm := consFamily1 d.N (lipschitz_rule d eta) }
  else .error "Penalty must be 1, 2, or 3."

/-- Observe an attribute of a successfully constructed formulation:
none when construction failed. -/
def okAttr {σ α : Type} (f : σ → α) : Except String σ → Option α
  | .ok m => some (f m)
  | .error _ => none

/-- Number of active objectives of a pCQR formulation. -/
def activeObjCount (m : PFormulation) : Nat :=
  (if m.objectiveActive then 1 else 0) + (if m.newObjective.isSome then 1 else 0)

/-- Number of active objectives of a pCER formulation (counting all
three slots: quantile, squared, penalized). -/
def activeObjCountE (m : PEFormulation) : Nat :=
  (if m.objectiveActive then 1 else 0) + (if m.squaredObjectiveActive then 1 else 0) +
    (if m.newObjective.isSome then 1 else 0)

/-- Concrete sample: N = 3 observations, J = 1 input, K = 1 contextual
variable. -/
def dEx : Data where
  N := 3
  J := 1
  K := 1
  y := fun i => (i : ℚ) + 1
  x := fun i _ => (i : ℚ) + 2
  z := fun _ _ => 1

/-- Concrete model context over dEx with a full off-diagonal Cutactive
matrix and a single true Active entry. -/
def ctxEx : Ctx where
  d := dEx
  Cutactive := fun i h => !(i == h)
  Active := fun i h => i == 0 && h == 1

/-- C5: with ADDITIVE composition and CONSTANT returns to scale the
source does not raise any error: __regression_rule, __afriat_rule,
__sweet_rule and __sweet_rule2 all return the sentinel False (embedded
as none) in place of a rule, with TODO comments marking the missing
handling, so no UnsupportedConfiguration failure happens at
constraint-generation time. -/
theorem addi_crs_returns_sentinel (c : Ctx) (f : FUN) :
    regression_rule c.d CET.addi RTS.crs = none
    ∧ afriat_rule c.d f CET.addi RTS.crs = none
    ∧ sweet_rule c f CET.addi RTS.crs = none
    ∧ sweet_rule2 c f CET.addi RTS.crs = none :=
  ⟨rfl, rfl, rfl, rfl⟩

/-- C7: under MULTIPLICATIVE composition the regression constraint for
observation i is log(y[i]) == log(frontier[i] + 1) + sum of
lamda[k] * z[i][k] + epsilon[i] (for either returns-to-scale), and the
log-link constraint is frontier[i] == sum of beta[i][j] * x[i][j] - 1
under CONSTANT returns (no intercept) and includes the intercept
alpha[i] under VARIABLE returns. -/
theorem mult_regression_log_forms (d : Data) (rts : RTS) :
    regression_rule d CET.mult rts =
      some (fun i =>
        ⟨Rel.eq, Expr.log (Expr.const (d.y i)),
          Expr.add
            (Expr.add (Expr.log (Expr.add (Expr.var (V.frontier i)) (Expr.const 1)))
              (sumExpr d.K fun k => Expr.mul (Expr.var (V.lamda k)) (Expr.const (d.z i k))))
            (Expr.var (V.epsilon i))⟩)
    ∧ log_rule d CET.mult RTS.crs =
      some (fun i =>
        ⟨Rel.eq, Expr.var (V.frontier i),
          Expr.sub
            (sumExpr d.J fun j => Expr.mul (Expr.var (V.beta i j)) (Expr.const (d.x i j)))
            (Expr.const 1)⟩)
    ∧ log_rule d CET.mult RTS.vrs =
      some (fun i =>
        ⟨Rel.eq, Expr.var (V.frontier i),
          Expr.sub
            (Expr.add (Expr.var (V.alpha i))
              (sumExpr d.J fun j => Expr.mul (Expr.var (V.beta i j)) (Expr.const (d.x i j))))
            (Expr.const 1)⟩) :=
  ⟨rfl, rfl, rfl⟩

/-- C8 counterexample: with ADDITIVE composition (N = 3, J = 1, K = 1)
the variable layout still contains the frontier variable, so frontier is
not allocated only when composition is MULTIPLICATIVE. -/
theorem frontier_allocated_under_additive :
    ((varLayout 3 1 1 CET.addi).map VarDecl.kind) =
      [VarKind.alpha, VarKind.beta, VarKind.lamda, VarKind.epsilon,
       VarKind.epsilonPlus, VarKind.epsilonMinus, VarKind.frontier] :=
  rfl

/-- C8 amended: all seven decision variables, frontier included, are
allocated unconditionally — the layout is the same for every
composition mode — with lower bound 0 on beta, frontier, epsilon_plus
and epsilon_minus and no bounds on alpha, lamda and epsilon, and the
layout is a pure function of (N, J, K) alone. -/
theorem varLayout_unconditional (N J K : Nat) (cet cet2 : CET) :
    varLayout N J K cet = varLayout N J K cet2
    ∧ varLayout N J K cet =
      [⟨.alpha, [N], none⟩,
       ⟨.beta, [N, J], some 0⟩,
       ⟨.lamda, [K], none⟩,
       ⟨.epsilon, [N], none⟩,
       ⟨.epsilonPlus, [N], some 0⟩,
       ⟨.epsilonMinus, [N], some 0⟩,
       ⟨.frontier, [N], some 0⟩] :=
  ⟨rfl, rfl⟩

/-- C9: invoking optimize on the local (remote = false) path with
MULTIPLICATIVE composition attempts no solve: it returns the
not-yet-available message as a plain return value (Python False plus a
printed message, not an exception) and leaves both status fields of the
model untouched, so the solved flag stays exactly as it was. -/
theorem optimize_mult_local_noop (s : OptState) :
    optimize CET.mult false s =
      (s, OptOutcome.notYetAvailable
        "Estimating the multiplicative model will be available in near future.") :=
  rfl

/-- C10: under VARIABLE returns to scale the Afriat rule and both
sweet-spot rules are identical for ADDITIVE and MULTIPLICATIVE
composition: the two branches of the source build the same constraint
expressions, so the composition mode does not change these three
families. -/
theorem vrs_families_composition_independent (c : Ctx) (f : FUN) :
    afriat_rule c.d f CET.addi RTS.vrs = afriat_rule c.d f CET.mult RTS.vrs
    ∧ sweet_rule c f CET.addi RTS.vrs = sweet_rule c f CET.mult RTS.vrs
    ∧ sweet_rule2 c f CET.addi RTS.vrs = sweet_rule2 c f CET.mult RTS.vrs :=
  ⟨rfl, rfl, rfl⟩

/-- C3: for penalty modes 1 (L1) and 2 (L2) exactly one objective is
active in the final pCQR / pCER formulation — the previously-defined
unpenalized objective is deactivated yet still present while the
penalized objective is active — and for penalty mode 3 (LIPSCHITZ) the
unpenalized objective stays active, no penalized objective is added,
and exactly N Lipschitz cap constraints exist. -/
theorem objective_exclusivity (d : Data) (tau eta : ℚ) :
    okAttr activeObjCount (mkPCQR d tau eta 1) = some 1
    ∧ okAttr PFormulation.objectiveActive (mkPCQR d tau eta 1) = some false
    ∧ okAttr PFormulation.objective (mkPCQR d tau eta 1) = some (quantileLoss d tau)
    ∧ okAttr (fun m => m.newObjective.isSome) (mkPCQR d tau eta 1) = some true
    ∧ okAttr activeObjCount (mkPCQR d tau eta 2) = some 1
    ∧ okAttr PFormulation.objectiveActive (mkPCQR d tau eta 2) = some false
    ∧ okAttr PFormulation.objective (mkPCQR d tau eta 2) = some (quantileLoss d tau)
    ∧ okAttr (fun m => m.newObjective.isSome) (mkPCQR d tau eta 2) = some true
    ∧ okAttr activeObjCount (mkPCQR d tau eta 3) = some 1
    ∧ okAttr PFormulation.objectiveActive (mkPCQR d tau eta 3) = some true
    ∧ okAttr PFormulation.newObjective (mkPCQR d tau eta 3) = some none
    ∧ okAttr (fun m => m.lipschitzNorm.length) (mkPCQR d tau eta 3) = some d.N
    ∧ okAttr activeObjCountE (mkPCER d tau eta 1) = some 1
    ∧ okAttr PEFormulation.squaredObjectiveActive (mkPCER d tau eta 1) = some false
    ∧ okAttr PEFormulation.squaredObjective (mkPCER d tau eta 1) = some (expectileLoss d tau)
    ∧ okAttr (fun m => m.newObjective.isSome) (mkPCER d tau eta 1) = some true
    ∧ okAttr activeObjCountE (mkPCER d tau eta 2) = some 1
    ∧ okAttr PEFormulation.squaredObjectiveActive (mkPCER d tau eta 2) = some false
    ∧ okAttr PEFormulation.squaredObjective (mkPCER d tau eta 2) = some (expectileLoss d tau)
    ∧ okAttr (fun m => m.newObjective.isSome) (mkPCER d tau eta 2) = some true
    ∧ okAttr activeObjCountE (mkPCER d tau eta 3) = some 1
    ∧ okAttr PEFormulation.squaredObjectiveActive (mkPCER d tau eta 3) = some true
    ∧ okAttr PEFormulation.newObjective (mkPCER d tau eta 3) = some none
    ∧ okAttr (fun m => m.lipschitzNorm.length) (mkPCER d tau eta 3) = some d.N := by
  refine ⟨rfl, rfl, rfl, rfl, rfl, rfl, rfl, rfl, rfl, rfl, rfl, ?_,
    rfl, rfl, rfl, rfl, rfl, rfl, rfl, rfl, rfl, rfl, rfl, ?_⟩
  all_goals simp [mkPCQR, mkPCER, okAttr, consFamily1]

/-- C4: under penalty 1 the minimized pCQR objective is
tau * sum of epsilon_plus + (1 - tau) * sum of epsilon_minus
+ eta * sum of beta[i][j]; under penalty 2 the penalty term instead
sums beta[i][j] squared; under penalty 3 the objective is the
unpenalized loss term alone and every observation gets the cap
constraint sum of beta[i][j] squared at most eta squared; the pCER
variants carry the same penalty terms with each epsilon term of the
loss squared. -/
theorem penalized_objective_forms (d : Data) (tau eta : ℚ) :
    okAttr PFormulation.newObjective (mkPCQR d tau eta 1) =
      some (some (Expr.add
        (Expr.add
          (Expr.mul (Expr.const tau) (sumExpr d.N fun i => Expr.var (V.epsilonPlus i)))
          (Expr.mul (Expr.const (1 - tau))
            (sumExpr d.N fun i => Expr.var (V.epsilonMinus i))))
        (Expr.mul (Expr.const eta) (sumIJ d.N d.J fun i j => Expr.var (V.beta i j)))))
    ∧ okAttr PFormulation.newObjective (mkPCQR d tau eta 2) =
      some (some (Expr.add
        (Expr.add
          (Expr.mul (Expr.const tau) (sumExpr d.N fun i => Expr.var (V.epsilonPlus i)))
          (Expr.mul (Expr.const (1 - tau))
            (sumExpr d.N fun i => Expr.var (V.epsilonMinus i))))
        (Expr.mul (Expr.const eta)
          (sumIJ d.N d.J fun i j => Expr.sq (Expr.var (V.beta i j))))))
    ∧ okAttr PFormulation.objective (mkPCQR d tau eta 3) =
      some (Expr.add
        (Expr.mul (Expr.const tau) (sumExpr d.N fun i => Expr.var (V.epsilonPlus i)))
        (Expr.mul (Expr.const (1 - tau))
          (sumExpr d.N fun i => Expr.var (V.epsilonMinus i))))
    ∧ okAttr PFormulation.objectiveActive (mkPCQR d tau eta 3) = some true
    ∧ okAttr PFormulation.newObjective (mkPCQR d tau eta 3) = some none
    ∧ okAttr PFormulation.lipschitzNorm (mkPCQR d tau eta 3) =
      some ((List.range d.N).map fun i =>
        (i, ⟨Rel.le, sumExpr d.J fun j => Expr.sq (Expr.var (V.beta i j)),
          Expr.const (eta ^ 2)⟩))
    ∧ okAttr PEFormulation.newObjective (mkPCER d tau eta 1) =
      some (some (Expr.add
        (Expr.add
          (Expr.mul (Expr.const tau)
            (sumExpr d.N fun i => Expr.sq (Expr.var (V.epsilonPlus i))))
          (Expr.mul (Expr.const (1 - tau))
            (sumExpr d.N fun i => Expr.sq (Expr.var (V.epsilonMinus i)))))
        (Expr.mul (Expr.const eta) (sumIJ d.N d.J fun i j => Expr.var (V.beta i j)))))
    ∧ okAttr PEFormulation.newObjective (mkPCER d tau eta 2) =
      some (some (Expr.add
        (Expr.add
          (Expr.mul (Expr.const tau)
            (sumExpr d.N fun i => Expr.sq (Expr.var (V.epsilonPlus i))))
          (Expr.mul (Expr.const (1 - tau))
            (sumExpr d.N fun i => Expr.sq (Expr.var (V.epsilonMinus i)))))
        (Expr.mul (Expr.const eta)
          (sumIJ d.N d.J fun i j => Expr.sq (Expr.var (V.beta i j))))))
    ∧ okAttr PEFormulation.squaredObjective (mkPCER d tau eta 3) =
      some (Expr.add
        (Expr.mul (Expr.const tau)
          (sumExpr d.N fun i => Expr.sq (Expr.var (V.epsilonPlus i))))
        (Expr.mul (Expr.const (1 - tau))
          (sumExpr d.N fun i => Expr.sq (Expr.var (V.epsilonMinus i)))))
    ∧ okAttr PEFormulation.lipschitzNorm (mkPCER d tau eta 3) =
      some ((List.range d.N).map fun i =>
        (i, ⟨Rel.le, sumExpr d.J fun j => Expr.sq (Expr.var (V.beta i j)),
          Expr.const (eta ^ 2)⟩)) :=
  ⟨rfl, rfl, rfl, rfl, rfl, rfl, rfl, rfl, rfl, rfl⟩

/-- C6: any penalty-mode code other than 1, 2 or 3 makes the pCQR and
pCER constructors raise ValueError, so no formulation object is ever
produced for the caller. -/
theorem invalid_penalty_rejected (d : Data) (tau eta : ℚ) (p : Int)
    (h1 : p ≠ 1) (h2 : p ≠ 2) (h3 : p ≠ 3) :
    mkPCQR d tau eta p = .error "Penalty must be 1, 2, or 3."
    ∧ mkPCER d tau eta p = .error "Penalty must be 1, 2, or 3." := by
  unfold mkPCQR mkPCER
  simp [h1, h2, h3]

/-- C6 witness: penalty code 4 is rejected by both constructors on the
concrete sample. -/
theorem invalid_penalty_rejected_witness :
    mkPCQR dEx (1 / 2) (1 / 10) 4 = .error "Penalty must be 1, 2, or 3."
    ∧ mkPCER dEx (1 / 2) (1 / 10) 4 = .error "Penalty must be 1, 2, or 3." :=
  invalid_penalty_rejected dEx (1 / 2) (1 / 10) 4 (by decide) (by decide) (by decide)

/-- Per-row length of a sweet-spot family: the surviving pairs of row i
are exactly the true off-diagonal entries of that row. -/
theorem filterMap_sweet_length (i : Nat) (M : Nat → Nat → Bool) (g : Nat → Nat → Cons)
    (l : List Nat) :
    (l.filterMap fun h =>
        (if M i h then if i = h then none else some (g i h) else none).map
          fun cns => ((i, h), cns)).length
    = (l.filter fun h => M i h && !(i == h)).length := by
  induction l with
  | nil => rfl
  | cons a t ih =>
    simp only [List.filterMap_cons, List.filter_cons]
    by_cases hM : M i a
    · by_cases he : i = a
      · subst he
        simp [hM, ih]
      · simp [hM, he, ih]
    · simp [hM, ih]

/-- Rowwise equal lengths give equal flattened lengths. -/
theorem flatMap_length_congr {α β : Type} (l : List Nat) (f : Nat → List α)
    (g : Nat → List β) (h : ∀ a, (f a).length = (g a).length) :
    (l.flatMap f).length = (l.flatMap g).length := by
  induction l with
  | nil => rfl
  | cons a t ih => simp [h, ih]

/-- A sweet-spot family built from the source's rule shape has exactly
as many constraints as its matrix has true off-diagonal entries. -/
theorem sweet_count_generic (N : Nat) (M : Nat → Nat → Bool) (g : Nat → Nat → Cons) :
    (consFamily2 N fun i h =>
      if M i h then if i = h then none else some (g i h) else none).length
    = offDiagTrueCount N M := by
  unfold consFamily2 offDiagTrueCount
  exact flatMap_length_congr _ _ _ fun i => filterMap_sweet_length i M g _

/-- C1: whenever the sweet-spot builders return a rule (every supported
configuration), the first family has exactly as many constraints as
Cutactive has true off-diagonal entries and the second exactly as many
as Active has; a pair with a false entry or with i = h produces no
constraint at all in either family (the rule yields the skip marker);
and the second-stage builder is the very same generation rule applied to
the Active matrix in place of Cutactive. -/
theorem sweet_spot_count_and_skip (c : Ctx) (f : FUN) (cet : CET) (rts : RTS)
    (r r2 : Nat → Nat → Option Cons)
    (hr : sweet_rule c f cet rts = some r)
    (hr2 : sweet_rule2 c f cet rts = some r2) :
    (consFamily2 c.d.N r).length = offDiagTrueCount c.d.N c.Cutactive
    ∧ (consFamily2 c.d.N r2).length = offDiagTrueCount c.d.N c.Active
    ∧ (∀ i h, i = h ∨ c.Cutactive i h = false → r i h = none)
    ∧ (∀ i h, i = h ∨ c.Active i h = false → r2 i h = none)
    ∧ sweet_rule2 c f cet rts = sweet_rule ⟨c.d, c.Active, c.Active⟩ f cet rts := by
  cases cet <;> cases rts
  case addi.crs => exact Option.noConfusion hr
  all_goals
    simp only [sweet_rule, sweet_rule2, Option.some.injEq] at hr hr2
    subst hr
    subst hr2
    refine ⟨sweet_count_generic _ _ _, sweet_count_generic _ _ _, ?_, ?_, rfl⟩
    all_goals
      intro i h hih
      rcases hih with rfl | hM
      · simp
      · simp [hM]

/-- Concrete first-stage sweet-spot rule on ctxEx (ADDITIVE, VARIABLE
returns, production frontier). -/
def sweetEx : Nat → Nat → Option Cons :=
  (sweet_rule ctxEx FUN.prod CET.addi RTS.vrs).getD fun _ _ => none

/-- Concrete second-stage sweet-spot rule on ctxEx. -/
def sweetEx2 : Nat → Nat → Option Cons :=
  (sweet_rule2 ctxEx FUN.prod CET.addi RTS.vrs).getD fun _ _ => none

/-- C1 witness: on the concrete context the first sweet-spot family has
as many constraints as Cutactive has true off-diagonal entries. -/
theorem sweet_spot_count_witness :
    (consFamily2 ctxEx.d.N sweetEx).length = offDiagTrueCount ctxEx.d.N ctxEx.Cutactive :=
  (sweet_spot_count_and_skip ctxEx FUN.prod CET.addi RTS.vrs sweetEx sweetEx2 rfl rfl).1

/-- C2: whenever the Afriat builder returns a rule (every supported
configuration), the family has exactly N constraints, one per
observation, and constraint i compares observation i's fitted value at
x_i with the fitted value of its cyclic successor (i + 1) mod N
evaluated at the same x_i, with the le operator for a production
frontier and ge for a cost frontier, and with the intercept term
dropped from both sides under CONSTANT returns to scale. -/
theorem afriat_ring_family (d : Data) (f : FUN) (cet : CET) (rts : RTS)
    (r : Nat → Cons) (hr : afriat_rule d f cet rts = some r) :
    (consFamily1 d.N r).length = d.N
    ∧ ∀ i, r i =
        ⟨(match f with | .prod => Rel.le | .cost => Rel.ge),
         (match rts with
          | .vrs => Expr.add (Expr.var (V.alpha i))
              (sumExpr d.J fun j =>
                Expr.mul (Expr.var (V.beta i j)) (Expr.const (d.x i j)))
          | .crs => sumExpr d.J fun j =>
              Expr.mul (Expr.var (V.beta i j)) (Expr.const (d.x i j))),
         (match rts with
          | .vrs => Expr.add (Expr.var (V.alpha ((i + 1) % d.N)))
              (sumExpr d.J fun j =>
                Expr.mul (Expr.var (V.beta ((i + 1) % d.N) j)) (Expr.const (d.x i j)))
          | .crs => sumExpr d.J fun j =>
              Expr.mul (Expr.var (V.beta ((i + 1) % d.N) j)) (Expr.const (d.x i j)))⟩ := by
  cases cet <;> cases rts
  case addi.crs => exact Option.noConfusion hr
  all_goals
    simp only [afriat_rule, Option.some.injEq] at hr
    subst hr
    exact ⟨by simp [consFamily1], fun i => by cases f <;> rfl⟩

/-- Concrete Afriat rule on dEx (ADDITIVE, VARIABLE returns, production
frontier). -/
def afriatEx : Nat → Cons :=
  (afriat_rule dEx FUN.prod CET.addi RTS.vrs).getD fun _ => ⟨Rel.eq, Expr.const 0, Expr.const 0⟩

/-- C2 witness: on the concrete sample the Afriat family has exactly
N = 3 constraints. -/
theorem afriat_ring_family_witness :
    (consFamily1 dEx.N afriatEx).length = dEx.N :=
  (afriat_ring_family dEx FUN.prod CET.addi RTS.vrs afriatEx rfl).1

end PyStoned

